import Mathlib

/-!
Verification development for the `smap_io` image reader
(`src/smap_io/interface.py`).

The Python module is shallowly embedded below: the HDF5 container, the
grid query surface and the reader configuration become plain data, the
`SPL3SMP_Img.read` method becomes a state-passing function
`SmapIO.read : Reader → H5File → Option Int → Reader × Except ReadErr Image`
(the first component is the reader after the call, since `read` assigns
`self.overpass` at line 126 of the source), and
`SPL3SMP_Ds.tstamps_for_daterange` becomes a pure function on days
counted as integers.  Numeric cell values are modelled as `Int`.
-/

set_option maxHeartbeats 1000000
set_option maxRecDepth 8000

namespace SmapIO

/-- Cell values and attribute values of the HDF5 fields (numeric). -/
abbrev Val := Int

/-- Python `str.upper` (ASCII), over the underlying character list. -/
def strUpper (s : String) : String := ⟨s.data.map Char.toUpper⟩

/-- Python `str.lower` (ASCII), over the underlying character list. -/
def strLower (s : String) : String := ⟨s.data.map Char.toLower⟩

/-- Whether `t` is an initial segment of `s` (Python `str.startswith`). -/
def strStarts (t s : String) : Bool := t.data.isPrefixOf s.data

/-- Python `str.endswith` over the underlying character lists. -/
def strEnds (s tail : String) : Bool := tail.data.isSuffixOf s.data

/-- One named field inside an overpass group: a 2-D raster (list of rows)
together with its attribute mapping (`_FillValue`, `valid_min`,
`valid_max`, and arbitrary further attributes). -/
structure H5Field where
  data : List (List Val)
  attrs : List (String × Val)
deriving DecidableEq

/-- An opened HDF5 container: the ordered association of top-level group
names to their named fields (`ds.keys()` is `groups.map Prod.fst`). -/
structure H5File where
  groups : List (String × List (String × H5Field))
deriving DecidableEq

/-- The grid query surface consumed by the reader: active point indices
into the flattened file raster (`activegpis`), the active coordinate
arrays, and the reported subset shape. -/
structure Grid where
  activegpis : List Nat
  activearrlon : List Val
  activearrlat : List Val
  subset_shape : List Nat
deriving DecidableEq

/-- The `parameter` argument of `SPL3SMP_Img.__init__`: a single name or
a list of names (`parameter : str or list`). -/
inductive ParamArg where
  | single (p : String)
  | listOf (ps : List String)
deriving DecidableEq

/-- The reader configuration stored on a `SPL3SMP_Img` instance by
`__init__` (lines 71-91 of the source). -/
structure Reader where
  filename : String
  mode : String
  parameters : List String
  overpass : Option String
  var_overpass_str : Bool
  grid : Grid
  flatten : Bool
deriving DecidableEq

/-- A data array of an `Image`: 1-D in flatten mode, 2-D in raster mode. -/
inductive Arr where
  | one (xs : List Val)
  | two (xss : List (List Val))
deriving DecidableEq

/-- The `pygeobase` `Image` value returned by `read`: coordinates, the
variable-name-to-data mapping, the per-variable metadata mapping, and an
optional timestamp. -/
structure Image where
  lon : Arr
  lat : Arr
  data : List (String × Arr)
  metadata : List (String × List (String × Val))
  timestamp : Option Int
deriving DecidableEq

/-- The exceptions `read` can raise: `IOError` (ambiguous overpass),
`IndexError` (`overpasses[0]` on an empty list, and out-of-range fancy
indexing), `AssertionError` (line 128), `NameError` (missing group),
`KeyError` (missing field) and `ValueError` (shape errors). -/
inductive ReadErr where
  | ioError (msg : String)
  | indexError
  | assertionError
  | nameError (field : String) (msg : String)
  | keyError (key : String)
  | valueError (msg : String)
deriving DecidableEq

/-- `if type(parameter) != list: parameter = [parameter]` (lines 84-85). -/
def initParameters : ParamArg → List String
  | .single p => [p]
  | .listOf ps => ps

/-- `SPL3SMP_Img.__init__` (lines 71-91): wraps a single parameter name
into a one-element list and uppercases a non-`None` overpass.  The grid
argument is taken as given (the `None` default constructs an external
`EASE36CellGrid`, outside this module). -/
def mkReader (filename : String) (mode : String) (parameter : ParamArg)
    (overpass : Option String) (var_overpass_str : Bool) (grid : Grid)
    (flatten : Bool) : Reader :=
  { filename := filename
    mode := mode
    parameters := initParameters parameter
    overpass := overpass.map strUpper
    var_overpass_str := var_overpass_str
    grid := grid
    flatten := flatten }

/-- The group-name template `self.overpass_templ` of line 88, as the
function substituting the orbit segment. -/
def overpass_templ (orbit : String) : String :=
  "Soil_Moisture_Retrieval_Data" ++ orbit

/-- `parse(self.overpass_templ, k)` at line 117: the `parse` library
fully matches `k` against the template, the placeholder standing for at
least one character; on success the captured orbit segment is returned. -/
def parseOrbit (k : String) : Option String :=
  if strStarts (overpass_templ "") k ∧ (overpass_templ "").length < k.length then
    some (k.drop (overpass_templ "").length)
  else
    none

/-- Overpass resolution, lines 114-128.  With `self.overpass = None` the
group names are scanned, each matched orbit segment loses its leading
character (`p['orbit'][1:]`), more than one collected suffix raises
`IOError`, and otherwise `overpasses[0].upper()` is taken — which on an
empty collection raises `IndexError`.  A fixed overpass must be `AM` or
`PM` (the `assert` of line 128). -/
def resolveOverpass (op : Option String) (keys : List String) :
    Except ReadErr String :=
  match op with
  | none =>
    let overpasses := keys.filterMap (fun k => (parseOrbit k).map (fun o => o.drop 1))
    if overpasses.length > 1 then
      .error (.ioError ("Multiple overpasses found in file, please specify one overpass to load: " ++
        String.intercalate ", " overpasses))
    else
      match overpasses with
      | [] => .error .indexError
      | o :: _ => .ok (strUpper o)
  | some o => if o = "AM" ∨ o = "PM" then .ok o else .error .assertionError

/-- The per-variable lookup suffix of lines 140-143: `_pm` for the `PM`
overpass, empty otherwise. -/
def varSuffix (overpass : String) : String :=
  if overpass ≠ "" then (if overpass = "PM" then "_pm" else "") else ""

/-- Python association lookup (`dict` access, `h5py` group access):
the value stored under the first matching key. -/
def dictGet {β : Type} : List (String × β) → String → Option β
  | [], _ => none
  | (k', v) :: rest, k => if k' == k then some v else dictGet rest k

/-- Python `dict` assignment `m[k] = v`: replaces the value of an
existing key in place, otherwise appends a new entry. -/
def dictInsert {β : Type} (m : List (String × β)) (k : String) (v : β) :
    List (String × β) :=
  if m.any (fun p => p.1 == k) then
    m.map (fun p => if p.1 == k then (k, v) else p)
  else
    m ++ [(k, v)]

/-- Group access `ds[sm_field]` / membership test `sm_field in ds.keys()`. -/
def lookupGroup (ds : H5File) (name : String) : Option (List (String × H5Field)) :=
  dictGet ds.groups name

/-- Field access `ds[sm_field][parameter + overpass_str]`. -/
def lookupField (grp : List (String × H5Field)) (name : String) : Option H5Field :=
  dictGet grp name

/-- Attribute access `param.attrs[key]`. -/
def lookupAttr (attrs : List (String × Val)) (k : String) : Option Val :=
  dictGet attrs k

/-- NumPy fancy indexing `data[self.grid.activegpis]` (line 151): selects
element `i` of the flat sequence for every active grid point `i`;
an out-of-range index raises `IndexError`. -/
def fancyIndex (data : List Val) (idx : List Nat) : Option (List Val) :=
  idx.mapM (fun i => data.get? i)

/-- The masking step of lines 152-161: if all of `_FillValue`,
`valid_min` and `valid_max` are present, each value strictly below
`valid_min` or strictly above `valid_max` is replaced by `_FillValue`;
a `KeyError` on any of the three lookups skips masking entirely. -/
def maskData (attrs : List (String × Val)) (data : List Val) : List Val :=
  match lookupAttr attrs "_FillValue", lookupAttr attrs "valid_min",
      lookupAttr attrs "valid_max" with
  | some fill_value, some valid_min, some valid_max =>
    data.map (fun v => if v < valid_min ∨ v > valid_max then fill_value else v)
  | _, _, _ => data

/-- The per-field data pipeline of lines 148-161: flip the raster along
its leading axis (`np.flipud`), flatten row-major, reindex by the active
grid points, then apply the best-effort mask. -/
def fieldData (g : Grid) (param : H5Field) : Except ReadErr (List Val) :=
  match fancyIndex (param.data.reverse.flatten) g.activegpis with
  | none => .error .indexError
  | some d => .ok (maskData param.attrs d)

/-- The output variable name of lines 167-176: with output-suffixing
enabled and a known overpass, `_am`/`_pm` (lowercase) is appended unless
the parameter already ends with that suffix; otherwise the parameter
name is used unchanged. -/
def ret_param_name (var_overpass_str : Bool) (overpass : Option String)
    (parameter : String) : String :=
  if var_overpass_str then
    match overpass with
    | none => parameter
    | some op =>
      if ¬ strEnds parameter ("_" ++ strLower op) then
        parameter ++ ("_" ++ strLower op)
      else
        parameter
  else
    parameter

/-- Whether the non-fatal renaming warning of lines 170-173 fires:
output-suffixing is enabled but no overpass is known. -/
def renameWarnEmitted (var_overpass_str : Bool) (overpass : Option String) : Bool :=
  var_overpass_str && overpass.isNone

/-- The `for parameter in self.parameters` loop of lines 145-179,
accumulating `return_data` and `return_meta` by dict assignment. -/
def readVarsLoop (var_overpass_str : Bool) (g : Grid)
    (grp : List (String × H5Field)) (overpass : String)
    (acc_data : List (String × List Val))
    (acc_meta : List (String × List (String × Val))) :
    List String →
      Except ReadErr (List (String × List Val) × List (String × List (String × Val)))
  | [] => .ok (acc_data, acc_meta)
  | parameter :: rest =>
    match lookupField grp (parameter ++ varSuffix overpass) with
    | none => .error (.keyError (parameter ++ varSuffix overpass))
    | some param =>
      match fieldData g param with
      | .error e => .error e
      | .ok data =>
        let name := ret_param_name var_overpass_str (some overpass) parameter
        readVarsLoop var_overpass_str g grp overpass
          (dictInsert acc_data name data)
          (dictInsert acc_meta name param.attrs) rest

/-- `np.prod` over the reported subset shape (line 192). -/
def listProd (l : List Nat) : Nat :=
  l.foldl (fun a b => a * b) 1

/-- Row-major `np.reshape` of a flat sequence into `rows` rows of
`cols` columns; total, meaningful when the length is `rows * cols`. -/
def npReshape (cols : Nat) : Nat → List Val → List (List Val)
  | 0, _ => []
  | rows + 1, xs => xs.take cols :: npReshape cols rows (xs.drop cols)

/-- The error message of lines 187-190 (grid not 2-dimensional). -/
def grid1dMsg : String :=
  "Grid is 1-dimensional, to read a 2d image, a 2d grid - e.g. from bbox of the global grid -is required."

/-- The error message of lines 196-201 (shape product disagrees with the
active coordinate array lengths), naming the offending shape. -/
def shapeMismatchMsg (shape : List Nat) : String :=
  "The grid shape " ++ toString shape ++
    " does not match with the shape of the loaded data. If you have passed a subgrid with gaps (e.g. landpoints only) you have to set `flatten=True`"

/-- The NumPy error raised when a variable's flat data cannot be
reshaped to the checked grid shape. -/
def reshapeErrMsg : String :=
  "cannot reshape array into the grid subset shape"

/-- The raster-mode data comprehension of lines 207-210: each variable's
flat data is reshaped to the subset shape and flipped along the leading
axis; a length mismatch is a NumPy `ValueError`. -/
def rasterizeData (rows cols : Nat) :
    List (String × List Val) → Except ReadErr (List (String × Arr))
  | [] => .ok []
  | (k, d) :: rest =>
    if d.length = rows * cols then
      match rasterizeData rows cols rest with
      | .error e => .error e
      | .ok out => .ok ((k, Arr.two (npReshape cols rows d).reverse) :: out)
    else
      .error (.valueError reshapeErrMsg)

/-- The flatten-mode `Image` of lines 181-183: the grid's active
coordinate arrays as stored, each variable's data as its flat sequence. -/
def mkFlatImage (g : Grid) (return_data : List (String × List Val))
    (return_meta : List (String × List (String × Val)))
    (timestamp : Option Int) : Image :=
  { lon := Arr.one g.activearrlon
    lat := Arr.one g.activearrlat
    data := return_data.map (fun kv => (kv.1, Arr.one kv.2))
    metadata := return_meta
    timestamp := timestamp }

/-- The raster-mode shaping of lines 184-212: a subset shape that is not
a two-element list raises the 1-dimensional-grid `ValueError`; a shape
whose product disagrees with either active coordinate array length
raises the shape-mismatch `ValueError`; otherwise coordinates and every
variable are reshaped to the shape and flipped along the leading axis. -/
def shapeRaster (g : Grid) (return_data : List (String × List Val))
    (return_meta : List (String × List (String × Val)))
    (timestamp : Option Int) : Except ReadErr Image :=
  match g.subset_shape with
  | [rows, cols] =>
    if listProd [rows, cols] ≠ g.activearrlon.length ∨
        listProd [rows, cols] ≠ g.activearrlat.length then
      .error (.valueError (shapeMismatchMsg [rows, cols]))
    else
      match rasterizeData rows cols return_data with
      | .error e => .error e
      | .ok d2 =>
        .ok { lon := Arr.two (npReshape cols rows g.activearrlon).reverse
              lat := Arr.two (npReshape cols rows g.activearrlat).reverse
              data := d2
              metadata := return_meta
              timestamp := timestamp }
  | _ => .error (.valueError grid1dMsg)

/-- The body of `SPL3SMP_Img.read` after overpass resolution
(lines 130-212).  It receives the configuration fields it consumes
(`self.parameters`, `self.var_overpass_str`, `self.grid`,
`self.flatten`) — these are untouched by the overpass assignment of
line 126, so reading them before or after it is equivalent. -/
def readBody (params : List String) (var_overpass_str : Bool) (g : Grid)
    (flatten : Bool) (ds : H5File) (overpass : String)
    (timestamp : Option Int) : Except ReadErr Image :=
  match lookupGroup ds (overpass_templ (if overpass ≠ "" then "_" ++ strUpper overpass else "")) with
  | none =>
    .error (.nameError
      (overpass_templ (if overpass ≠ "" then "_" ++ strUpper overpass else ""))
      "Field does not exists. Try deactivating overpass option.")
  | some grp =>
    match readVarsLoop var_overpass_str g grp overpass [] [] params with
    | .error e => .error e
    | .ok (return_data, return_meta) =>
      if flatten then
        .ok (mkFlatImage g return_data return_meta timestamp)
      else
        shapeRaster g return_data return_meta timestamp

/-- `SPL3SMP_Img.read` (lines 93-212) as a state-passing function: the
first component is the reader after the call (line 126 assigns the
resolved overpass to `self.overpass`; when the overpass was fixed the
assignment `overpass := some op` rewrites the field with its own value),
the second the raised exception or the returned `Image`. -/
def read (r : Reader) (ds : H5File) (timestamp : Option Int) :
    Reader × Except ReadErr Image :=
  match resolveOverpass r.overpass (ds.groups.map Prod.fst) with
  | .error e => (r, .error e)
  | .ok overpass =>
    ({ r with overpass := some overpass },
      readBody r.parameters r.var_overpass_str r.grid r.flatten ds overpass timestamp)

/-- Projection used in the statements below: the data array stored under
`name` in a successful read, `none` when the read raised. -/
def readData (r : Reader) (ds : H5File) (timestamp : Option Int)
    (name : String) : Option Arr :=
  match (read r ds timestamp).2 with
  | .ok img => dictGet img.data name
  | .error _ => none

/-- `SPL3SMP_Ds.tstamps_for_daterange` (lines 288-311): one entry per
`i in range(diff.days + 1)`, each `start_date + timedelta(days=i)`;
days are counted as integers and a negative Python `range` bound yields
the empty sequence (`Int.toNat` clamps at zero). -/
def tstamps_for_daterange (start_date end_date : Int) : List Int :=
  (List.range (end_date - start_date + 1).toNat).map
    (fun i : Nat => start_date + (i : Int))

/-! ### Concrete fixtures used in counterexamples and witnesses -/

/-- A 4×4 raster with pairwise distinct rows. -/
def ex4 : List (List Val) := [[1,2,3,4],[5,6,7,8],[9,10,11,12],[13,14,15,16]]

/-- The full identity grid over a 4×4 raster: all 16 cells active in
file order, subset shape 4×4. -/
def g4 : Grid :=
  { activegpis := List.range 16
    activearrlon := (List.range 16).map Int.ofNat
    activearrlat := (List.range 16).map Int.ofNat
    subset_shape := [4, 4] }

/-- A file holding one ascending group with field `soil_moisture` and no
masking attributes. -/
def ds4 : H5File :=
  { groups := [("Soil_Moisture_Retrieval_Data_AM",
      [("soil_moisture", { data := ex4, attrs := [] })])] }

/-- A reader over `g4` with a fixed ascending overpass and no output
suffixing; `fl` selects flatten or raster mode. -/
def r4 (fl : Bool) : Reader :=
  { filename := "f.h5"
    mode := "r"
    parameters := ["soil_moisture"]
    overpass := some "AM"
    var_overpass_str := false
    grid := g4
    flatten := fl }

/-- Attribute fixture carrying all three masking attributes. -/
def atst : List (String × Val) :=
  [("_FillValue", -9999), ("valid_min", 0), ("valid_max", 100), ("units", 1)]

/-- Attribute fixture missing `_FillValue`. -/
def atst2 : List (String × Val) := [("valid_min", 0), ("valid_max", 100)]

/-- Data fixture spanning both bounds of the valid range. -/
def dtst : List Val := [-1, 0, 50, 100, 101]

/-- An old-format file: the single overpass group carries no orbit
suffix, so the group-name scan collects zero suffixes. -/
def dsOld : H5File :=
  { groups := [("Soil_Moisture_Retrieval_Data",
      [("soil_moisture", { data := ex4, attrs := [] })]), ("Metadata", [])] }

/-- A reader constructed with the overpass unset (resolve from file). -/
def rNone : Reader :=
  mkReader "f.h5" "r" (.single "soil_moisture") none false g4 true

/-- The grid `g4` with a 1-dimensional reported subset shape. -/
def g1d : Grid := { g4 with subset_shape := [16] }

/-! ### Structural lemmas about the embedded reader -/

/-- `npReshape` always produces the requested number of rows. -/
theorem npReshape_length (cols : Nat) :
    ∀ (rows : Nat) (xs : List Val), (npReshape cols rows xs).length = rows := by
  intro rows
  induction rows with
  | zero => intro xs; rfl
  | succ n ih => intro xs; simp [npReshape, ih]

/-- When the flat length matches, every row of `npReshape` has the
requested number of columns. -/
theorem npReshape_row_length (cols : Nat) :
    ∀ (rows : Nat) (xs : List Val), xs.length = rows * cols →
      ∀ row ∈ npReshape cols rows xs, row.length = cols := by
  intro rows
  induction rows with
  | zero => intro xs _ row hrow; exact absurd hrow (by simp [npReshape])
  | succ n ih =>
    intro xs hlen row hrow
    have hc : cols ≤ xs.length := by
      rw [hlen, Nat.succ_mul]
      exact Nat.le_add_left cols (n * cols)
    simp only [npReshape, List.mem_cons] at hrow
    rcases hrow with rfl | hrow
    · rw [List.length_take]
      omega
    · exact ih (xs.drop cols) (by rw [List.length_drop, hlen, Nat.succ_mul]; omega) row hrow

/-- When the flat length matches, flattening `npReshape` recovers the
flat sequence. -/
theorem npReshape_flatten (cols : Nat) :
    ∀ (rows : Nat) (xs : List Val), xs.length = rows * cols →
      (npReshape cols rows xs).flatten = xs := by
  intro rows
  induction rows with
  | zero =>
    intro xs h
    have hx : xs = [] := List.eq_nil_of_length_eq_zero (by simpa using h)
    simp [npReshape, hx]
  | succ n ih =>
    intro xs h
    simp only [npReshape, List.flatten_cons]
    rw [ih (xs.drop cols) (by rw [List.length_drop, h, Nat.succ_mul]; omega)]
    exact List.take_append_drop cols xs

/-- `dictGet` after mapping the values of an association list. -/
theorem dictGet_map {β γ : Type} (f : β → γ) :
    ∀ (m : List (String × β)) (k : String),
      dictGet (m.map (fun kv => (kv.1, f kv.2))) k = (dictGet m k).map f := by
  intro m
  induction m with
  | nil => intro k; rfl
  | cons hd tl ih =>
    intro k
    obtain ⟨k', v⟩ := hd
    simp only [List.map_cons, dictGet]
    cases h : (k' == k) <;> simp [h, ih k]

/-- An infix of a list is an infix of any left extension of it. -/
theorem sub_append_lift {α : Type} (s : List α) {x l : List α}
    (h : x <:+: l) : x <:+: s ++ l := by
  obtain ⟨u, v, huv⟩ := h
  exact ⟨s ++ u, v, by rw [← huv]; simp⟩

/-- Inversion of `rasterizeData`: a successful rasterization maps every
entry of the flat data mapping to its reshaped, leading-axis-reversed
2-D array, and certifies that every stored flat sequence has exactly
`rows * cols` elements. -/
theorem rasterizeData_get (rows cols : Nat) :
    ∀ (rdata : List (String × List Val)) (D : List (String × Arr)),
      rasterizeData rows cols rdata = .ok D →
      ∀ name : String,
        dictGet D name =
          (dictGet rdata name).map (fun d => Arr.two (npReshape cols rows d).reverse) ∧
        (∀ d, dictGet rdata name = some d → d.length = rows * cols) := by
  intro rdata
  induction rdata with
  | nil =>
    intro D hD name
    simp only [rasterizeData] at hD
    cases hD
    exact ⟨rfl, fun d hd => by simp [dictGet] at hd⟩
  | cons hd tl ih =>
    intro D hD name
    obtain ⟨k, d⟩ := hd
    simp only [rasterizeData] at hD
    split at hD
    · rename_i hlen
      split at hD
      · exact absurd hD (by simp)
      · rename_i out hrest
        cases hD
        have htl := ih out hrest name
        cases hk : (k == name) with
        | true =>
          refine ⟨by simp [dictGet, hk], ?_⟩
          intro d' hd'
          simp only [dictGet, hk, if_pos] at hd'
          cases hd'
          exact hlen
        | false =>
          refine ⟨?_, ?_⟩
          · simpa [dictGet, hk] using htl.1
          · intro d' hd'
            apply htl.2 d'
            simpa [dictGet, hk] using hd'
    · exact absurd hD (by simp)

/-- Inversion of `shapeRaster`: a successful raster shaping certifies a
two-element subset shape whose product matches both active coordinate
array lengths, and produces the reshaped, leading-axis-reversed
coordinate arrays together with the rasterized data mapping. -/
theorem shapeRaster_ok_parts (g : Grid) (rdata : List (String × List Val))
    (rmeta : List (String × List (String × Val))) (ts : Option Int) (img : Image)
    (h : shapeRaster g rdata rmeta ts = .ok img) :
    ∃ rows cols D,
      g.subset_shape = [rows, cols] ∧
      rows * cols = g.activearrlon.length ∧
      rows * cols = g.activearrlat.length ∧
      rasterizeData rows cols rdata = .ok D ∧
      img = { lon := Arr.two (npReshape cols rows g.activearrlon).reverse
              lat := Arr.two (npReshape cols rows g.activearrlat).reverse
              data := D
              metadata := rmeta
              timestamp := ts } := by
  unfold shapeRaster at h
  split at h
  · rename_i rows cols heq
    split at h
    · exact absurd h (by simp)
    · rename_i hprod
      have hp : listProd [rows, cols] = rows * cols := by
        show (1 * rows) * cols = rows * cols
        rw [Nat.one_mul]
      rw [hp] at hprod
      push_neg at hprod
      split at h
      · exact absurd h (by simp)
      · rename_i D hD
        cases h
        exact ⟨rows, cols, D, heq, hprod.1, hprod.2, hD, rfl⟩
  · exact absurd h (by simp)

/-- Inversion of `read`: a successful read certifies a successful
overpass resolution, the updated reader state, a present overpass
group, a successful variable loop, and the mode-dependent shaping of
the resulting image. -/
theorem read_ok_parts (r : Reader) (ds : H5File) (ts : Option Int)
    (r2 : Reader) (img : Image) (h : read r ds ts = (r2, .ok img)) :
    ∃ op grp rdata rmeta,
      resolveOverpass r.overpass (ds.groups.map Prod.fst) = .ok op ∧
      r2 = { r with overpass := some op } ∧
      lookupGroup ds (overpass_templ (if op ≠ "" then "_" ++ strUpper op else "")) = some grp ∧
      readVarsLoop r.var_overpass_str r.grid grp op [] [] r.parameters = .ok (rdata, rmeta) ∧
      ((r.flatten = true ∧ img = mkFlatImage r.grid rdata rmeta ts) ∨
       (r.flatten = false ∧ shapeRaster r.grid rdata rmeta ts = .ok img)) := by
  unfold read at h
  split at h
  · exact absurd h (by simp)
  · rename_i op hres
    simp only [Prod.mk.injEq] at h
    obtain ⟨hr2, hbody⟩ := h
    unfold readBody at hbody
    split at hbody
    · exact absurd hbody (by simp)
    · rename_i grp hgrp
      split at hbody
      · exact absurd hbody (by simp)
      · rename_i rdata rmeta hloop
        split at hbody
        · rename_i hfl
          cases hbody
          exact ⟨op, grp, rdata, rmeta, hres, hr2.symm, hgrp, hloop,
            Or.inl ⟨hfl, rfl⟩⟩
        · rename_i hfl
          exact ⟨op, grp, rdata, rmeta, hres, hr2.symm, hgrp, hloop,
            Or.inr ⟨by simpa using hfl, hbody⟩⟩

/-- Evaluation of `shapeRaster` once the subset shape is known to be a
two-element list. -/
theorem shapeRaster_eq (g : Grid) (rdata : List (String × List Val))
    (rmeta : List (String × List (String × Val))) (ts : Option Int)
    (rows cols : Nat) (hshape : g.subset_shape = [rows, cols]) :
    shapeRaster g rdata rmeta ts =
      if listProd [rows, cols] ≠ g.activearrlon.length ∨
          listProd [rows, cols] ≠ g.activearrlat.length then
        .error (.valueError (shapeMismatchMsg [rows, cols]))
      else
        match rasterizeData rows cols rdata with
        | .error e => .error e
        | .ok d2 =>
          .ok { lon := Arr.two (npReshape cols rows g.activearrlon).reverse
                lat := Arr.two (npReshape cols rows g.activearrlat).reverse
                data := d2
                metadata := rmeta
                timestamp := ts } := by
  unfold shapeRaster
  rw [hshape]

/-- One step of the parameter loop when the field lookup and the data
pipeline both succeed. -/
theorem readVarsLoop_cons (v : Bool) (g : Grid)
    (grp : List (String × H5Field)) (op : String)
    (accd : List (String × List Val))
    (accm : List (String × List (String × Val)))
    (parameter : String) (rest : List String) (fld : H5Field) (d : List Val)
    (hf : lookupField grp (parameter ++ varSuffix op) = some fld)
    (hd : fieldData g fld = .ok d) :
    readVarsLoop v g grp op accd accm (parameter :: rest) =
      readVarsLoop v g grp op
        (dictInsert accd (ret_param_name v (some op) parameter) d)
        (dictInsert accm (ret_param_name v (some op) parameter) fld.attrs) rest := by
  simp only [readVarsLoop, hf, hd]

/-! ### Claim theorems -/

/-- C6: for `end_date ≥ start_date`, `tstamps_for_daterange` returns
exactly `(end−start).days + 1` entries, each `start + i`, hence strictly
increasing by one day with no gaps or duplicates, first = start and
last = end; the embedding is a pure function of the two dates. -/
theorem c6_tstamps (s e : Int) (h : s ≤ e) :
    (tstamps_for_daterange s e).length = (e - s).toNat + 1 ∧
    (∀ i : Nat, i < (tstamps_for_daterange s e).length →
      (tstamps_for_daterange s e).getD i 0 = s + i) ∧
    (tstamps_for_daterange s e).getD 0 0 = s ∧
    (tstamps_for_daterange s e).getD ((tstamps_for_daterange s e).length - 1) 0 = e ∧
    (∀ i : Nat, i + 1 < (tstamps_for_daterange s e).length →
      (tstamps_for_daterange s e).getD (i + 1) 0 =
        (tstamps_for_daterange s e).getD i 0 + 1) := by
  have hlen : (tstamps_for_daterange s e).length = (e - s + 1).toNat := by
    unfold tstamps_for_daterange
    rw [List.length_map, List.length_range]
  have hget : ∀ i : Nat, i < (tstamps_for_daterange s e).length →
      (tstamps_for_daterange s e).getD i 0 = s + i := by
    intro i hi
    rw [hlen] at hi
    unfold tstamps_for_daterange
    rw [List.getD_eq_getElem?_getD, List.getElem?_map, List.getElem?_range hi]
    rfl
  have h0 : (e - s + 1).toNat = (e - s).toNat + 1 := by omega
  refine ⟨hlen.trans h0, hget, ?_, ?_, ?_⟩
  · have := hget 0 (by rw [hlen]; omega)
    simpa using this
  · have hl : (tstamps_for_daterange s e).length - 1 <
        (tstamps_for_daterange s e).length := by
      rw [hlen]; omega
    rw [hget _ hl, hlen]
    omega
  · intro i hi
    rw [hget (i + 1) hi, hget i (by omega)]
    push_cast
    ring

/-- Witness for C6 at the concrete range 0..2. -/
theorem c6_tstamps_witness :
    (tstamps_for_daterange 0 2).length = ((2 : Int) - 0).toNat + 1 ∧
    (tstamps_for_daterange 0 2).getD 0 0 = 0 ∧
    (tstamps_for_daterange 0 2).getD ((tstamps_for_daterange 0 2).length - 1) 0 = 2 :=
  ⟨(c6_tstamps 0 2 (by decide)).1, (c6_tstamps 0 2 (by decide)).2.2.1,
    (c6_tstamps 0 2 (by decide)).2.2.2.1⟩

/-- C8: when the end date lies at least one whole day before the start
date, `tstamps_for_daterange` returns the empty sequence (the Python
`range` over a non-positive bound is empty) rather than raising or
producing descending dates. -/
theorem c8_empty_range (s e : Int) (h : e ≤ s - 1) :
    tstamps_for_daterange s e = [] := by
  unfold tstamps_for_daterange
  have h0 : (e - s + 1).toNat = 0 := by omega
  rw [h0]
  rfl

/-- Witness for C8 with the end two days before the start. -/
theorem c8_empty_range_witness : tstamps_for_daterange 5 3 = [] :=
  c8_empty_range 5 3 (by decide)

/-- C4: the output variable name appends the lowercase overpass suffix
exactly when suffixing is enabled, an overpass is known and the
requested name does not already end with that suffix; with suffixing
enabled but no overpass known the non-fatal warning fires and the name
is unchanged; with suffixing disabled the name is always unchanged and
no warning fires. -/
theorem c4_output_naming :
    (∀ (parameter op : String),
      ret_param_name true (some op) parameter =
        (if strEnds parameter ("_" ++ strLower op) then parameter
         else parameter ++ ("_" ++ strLower op))) ∧
    (∀ parameter : String,
      ret_param_name true none parameter = parameter ∧
      renameWarnEmitted true none = true) ∧
    (∀ (parameter : String) (op : Option String),
      ret_param_name false op parameter = parameter ∧
      renameWarnEmitted false op = false) ∧
    ret_param_name true (some "PM") "soil_moisture" = "soil_moisture_pm" ∧
    ret_param_name true (some "PM") "soil_moisture_pm" = "soil_moisture_pm" ∧
    ret_param_name false (some "PM") "soil_moisture" = "soil_moisture" := by
  refine ⟨?_, ?_, ?_, by decide, by decide, by decide⟩
  · intro p op
    by_cases h : strEnds p ("_" ++ strLower op) <;> simp [ret_param_name, h]
  · intro p
    exact ⟨rfl, rfl⟩
  · intro p op
    cases op <;> exact ⟨rfl, rfl⟩

/-- C3: with all three masking attributes present, the field's values
are mapped by the strict out-of-range test to `_FillValue` (boundary
values of a well-formed range are preserved); with any attribute
missing, the values pass through unmasked and no error is raised; and
the read pipeline (`fieldData`) applies exactly this mask to the
reindexed data. -/
theorem c3_masking :
    (∀ (attrs : List (String × Val)) (d : List Val) (f mn mx : Val),
      lookupAttr attrs "_FillValue" = some f →
      lookupAttr attrs "valid_min" = some mn →
      lookupAttr attrs "valid_max" = some mx →
      maskData attrs d = d.map (fun v => if v < mn ∨ v > mx then f else v) ∧
      (mn ≤ mx → ∀ v : Val, (v = mn ∨ v = mx) →
        (if v < mn ∨ v > mx then f else v) = v)) ∧
    (∀ (attrs : List (String × Val)) (d : List Val),
      (lookupAttr attrs "_FillValue" = none ∨ lookupAttr attrs "valid_min" = none ∨
        lookupAttr attrs "valid_max" = none) →
      maskData attrs d = d) ∧
    (∀ (g : Grid) (param : H5Field) (d : List Val),
      fancyIndex (param.data.reverse.flatten) g.activegpis = some d →
      fieldData g param = .ok (maskData param.attrs d)) := by
  refine ⟨?_, ?_, ?_⟩
  · intro attrs d f mn mx hf hmn hmx
    have hmap : maskData attrs d =
        d.map (fun v => if v < mn ∨ v > mx then f else v) := by
      unfold maskData
      rw [hf, hmn, hmx]
    refine ⟨hmap, ?_⟩
    intro hr v hv
    rw [if_neg]
    intro hc
    rcases hv with hveq | hveq
    · rw [hveq] at hc
      exact hc.elim (lt_irrefl mn) (fun hgt => absurd hr (not_le.mpr hgt))
    · rw [hveq] at hc
      exact hc.elim (fun hlt => absurd hr (not_le.mpr hlt)) (lt_irrefl mx)
  · intro attrs d h
    unfold maskData
    rcases hf : lookupAttr attrs "_FillValue" with _ | f
    · rfl
    · rcases hmn : lookupAttr attrs "valid_min" with _ | mn
      · rfl
      · rcases hmx : lookupAttr attrs "valid_max" with _ | mx
        · rfl
        · rw [hf, hmn, hmx] at h
          rcases h with h | h | h <;> exact absurd h (by simp)
  · intro g param d h
    unfold fieldData
    rw [h]

/-- Witness for C3: a value below `valid_min` and one above `valid_max`
are replaced by the fill value, the boundary values survive, and with
`_FillValue` absent the data passes through unchanged. -/
theorem c3_masking_witness :
    maskData atst dtst = dtst.map (fun v => if v < 0 ∨ v > 100 then -9999 else v) ∧
    maskData atst2 dtst = dtst :=
  ⟨(c3_masking.1 atst dtst (-9999) 0 100 rfl rfl rfl).1,
    c3_masking.2.1 atst2 dtst (Or.inl rfl)⟩

/-- C2: overpass resolution at read time, evaluated on the embedded
code.  Two distinct suffixes raise the `IOError` listing both
candidates; a single suffix is adopted uppercased with its leading
underscore stripped, and the read succeeds; a fixed overpass must be one
of the two recognized tokens.  The final two conjuncts exhibit the
divergence at the claim's zero-match case: `overpasses[0]` on the empty
collection raises `IndexError` instead of proceeding with no overpass
(the reader docstring and the dead no-overpass warning branch at lines
170-174 show the claim's behaviour is the intent). -/
theorem c2_overpass_resolution :
    resolveOverpass none
        ["Soil_Moisture_Retrieval_Data_AM", "Soil_Moisture_Retrieval_Data_PM", "Metadata"] =
      .error (.ioError
        "Multiple overpasses found in file, please specify one overpass to load: AM, PM") ∧
    resolveOverpass none ["Soil_Moisture_Retrieval_Data_am"] = .ok "AM" ∧
    (read rNone ds4 none).1.overpass = some "AM" ∧
    ((read rNone ds4 none).2).isOk = true ∧
    resolveOverpass (some "XX") ["Soil_Moisture_Retrieval_Data_AM"] = .error .assertionError ∧
    resolveOverpass (some "AM") [] = .ok "AM" ∧
    resolveOverpass none ["Soil_Moisture_Retrieval_Data", "Metadata"] = .error .indexError ∧
    (read rNone dsOld none).2 = .error .indexError :=
  ⟨rfl, rfl, rfl, rfl, rfl, rfl, rfl, rfl⟩

/-- Helper: the reader returned by `read` is the input reader with only
the `overpass` field possibly replaced by the resolved overpass. -/
theorem read_fst (r : Reader) (ds : H5File) (ts : Option Int) :
    (read r ds ts).1 =
      match resolveOverpass r.overpass (ds.groups.map Prod.fst) with
      | .error _ => r
      | .ok op => { r with overpass := some op } := by
  unfold read
  cases resolveOverpass r.overpass (ds.groups.map Prod.fst) <;> rfl

/-- C7 counterexample: a reader constructed with the overpass unset does
not keep it unset across a read — `read` stores the resolved overpass on
the reader, refuting the claimed immutability of the configuration. -/
theorem c7_counterexample :
    rNone.overpass = none ∧ (read rNone ds4 none).1.overpass = some "AM" :=
  ⟨rfl, rfl⟩

/-- C7 (amended): every configuration field other than the overpass
setting is unchanged by every read call, successful or failing; an
overpass fixed at construction is preserved; an unset overpass is either
left unset (when resolution fails) or permanently replaced by the
overpass resolved from the file. -/
theorem c7_amended (r : Reader) (ds : H5File) (ts : Option Int) :
    ((read r ds ts).1.filename = r.filename ∧
     (read r ds ts).1.mode = r.mode ∧
     (read r ds ts).1.parameters = r.parameters ∧
     (read r ds ts).1.var_overpass_str = r.var_overpass_str ∧
     (read r ds ts).1.grid = r.grid ∧
     (read r ds ts).1.flatten = r.flatten) ∧
    (∀ o : String, r.overpass = some o → (read r ds ts).1.overpass = some o) ∧
    (r.overpass = none →
      (read r ds ts).1.overpass = none ∨
      ∃ op : String, resolveOverpass none (ds.groups.map Prod.fst) = .ok op ∧
        (read r ds ts).1.overpass = some op) := by
  rw [read_fst]
  cases hres : resolveOverpass r.overpass (ds.groups.map Prod.fst) with
  | error e =>
    exact ⟨⟨rfl, rfl, rfl, rfl, rfl, rfl⟩, fun o ho => ho, fun hn => Or.inl hn⟩
  | ok op =>
    refine ⟨⟨rfl, rfl, rfl, rfl, rfl, rfl⟩, ?_, ?_⟩
    · intro o ho
      rw [ho] at hres
      simp only [resolveOverpass] at hres
      split at hres <;> simp_all
    · intro hn
      rw [hn] at hres
      exact Or.inr ⟨op, hres, rfl⟩

/-- Witness for C7 (amended) at a reader with a fixed overpass. -/
theorem c7_amended_witness :
    (read (r4 true) ds4 none).1.overpass = some "AM" ∧
    (read (r4 true) ds4 none).1.grid = (r4 true).grid :=
  ⟨(c7_amended (r4 true) ds4 none).2.1 "AM" rfl,
    (c7_amended (r4 true) ds4 none).1.2.2.2.2.1⟩

/-- C10: constructing the reader from a single parameter name yields the
same reader — and therefore the same `read` behaviour — as constructing
it from the one-element list, its stored parameter list is exactly
`[p]`, and for every input form the stored field is the (list-valued)
normalization of the argument. -/
theorem c10_parameter_normalization :
    (∀ (fn mode p : String) (op : Option String) (vops : Bool) (g : Grid) (fl : Bool),
      mkReader fn mode (.single p) op vops g fl =
        mkReader fn mode (.listOf [p]) op vops g fl) ∧
    (∀ (fn mode p : String) (op : Option String) (vops : Bool) (g : Grid) (fl : Bool),
      (mkReader fn mode (.single p) op vops g fl).parameters = [p]) ∧
    (∀ (arg : ParamArg) (fn mode : String) (op : Option String) (vops : Bool)
        (g : Grid) (fl : Bool),
      (mkReader fn mode arg op vops g fl).parameters = initParameters arg) ∧
    (∀ (fn mode p : String) (op : Option String) (vops : Bool) (g : Grid) (fl : Bool)
        (ds : H5File) (ts : Option Int),
      read (mkReader fn mode (.single p) op vops g fl) ds ts =
        read (mkReader fn mode (.listOf [p]) op vops g fl) ds ts) :=
  ⟨fun _ _ _ _ _ _ _ => rfl, fun _ _ _ _ _ _ _ => rfl,
    fun _ _ _ _ _ _ _ => rfl, fun _ _ _ _ _ _ _ _ _ => rfl⟩

/-- The image produced by the flatten-mode read of `ds4` over `g4`. -/
def img4flat : Image :=
  { lon := Arr.one g4.activearrlon
    lat := Arr.one g4.activearrlat
    data := [("soil_moisture", Arr.one (List.reverse ex4).flatten)]
    metadata := [("soil_moisture", [])]
    timestamp := none }

/-- The image produced by the raster-mode read of `ds4` over `g4`: the
leading-axis reversal of the shaping stage cancels the reversal of the
extraction stage, leaving the original raster. -/
def img4raster : Image :=
  { lon := Arr.two (npReshape 4 4 g4.activearrlon).reverse
    lat := Arr.two (npReshape 4 4 g4.activearrlat).reverse
    data := [("soil_moisture", Arr.two ex4)]
    metadata := [("soil_moisture", [])]
    timestamp := none }

/-- C1 counterexample: for the 4×4 identity-grid scenario, the
raster-mode data array equals the input raster — the reversal of the
shaping stage undoes the reversal of the extraction stage — and not the
row-reversed raster the claim states (the rows of `ex4` are pairwise
distinct, so the two disagree). -/
theorem c1_counterexample :
    readData (r4 false) ds4 none "soil_moisture" = some (Arr.two ex4) ∧
    ex4 ≠ List.reverse ex4 :=
  ⟨rfl, by decide⟩

/-- C1 (amended): for the 4×4 identity-grid scenario, raster mode
returns the input raster unchanged (the two leading-axis reversals
cancel) and flatten mode returns the row-major flattening of the
row-reversed raster; in general, whenever the raster-mode and
flatten-mode reads of the same grid and file both succeed, every
raster-mode data array has exactly the grid's 2-D subset shape, the
flatten-mode data has length equal to the product of that shape, and
the flatten values are recovered from the raster values by undoing the
shaping stage's leading-axis reversal and flattening row-major. -/
theorem c1_amended :
    readData (r4 false) ds4 none "soil_moisture" = some (Arr.two ex4) ∧
    readData (r4 true) ds4 none "soil_moisture" =
      some (Arr.one (List.reverse ex4).flatten) ∧
    (∀ (r : Reader) (ds : H5File) (ts : Option Int) (ra rb : Reader)
        (imga imgb : Image) (rows cols : Nat) (name : String)
        (M : List (List Val)),
      r.grid.subset_shape = [rows, cols] →
      read { r with flatten := true } ds ts = (ra, .ok imga) →
      read { r with flatten := false } ds ts = (rb, .ok imgb) →
      dictGet imgb.data name = some (Arr.two M) →
      ∃ xs, dictGet imga.data name = some (Arr.one xs) ∧
        M.length = rows ∧ (∀ row ∈ M, row.length = cols) ∧
        xs.length = rows * cols ∧ M.reverse.flatten = xs) := by
  refine ⟨rfl, rfl, ?_⟩
  intro r ds ts ra rb imga imgb rows cols name M hshape h1 h2 hM
  obtain ⟨op1, grp1, rdata1, rmeta1, hres1, _, hgrp1, hloop1, hb1⟩ :=
    read_ok_parts _ ds ts ra imga h1
  obtain ⟨op2, grp2, rdata2, rmeta2, hres2, _, hgrp2, hloop2, hb2⟩ :=
    read_ok_parts _ ds ts rb imgb h2
  have hop : op1 = op2 := by
    have h12 : (Except.ok op1 : Except ReadErr String) = Except.ok op2 :=
      hres1.symm.trans hres2
    exact Except.ok.inj h12
  subst hop
  have hg : grp1 = grp2 := Option.some.inj (hgrp1.symm.trans hgrp2)
  subst hg
  have hpair : (rdata1, rmeta1) = (rdata2, rmeta2) :=
    Except.ok.inj (hloop1.symm.trans hloop2)
  have hrd : rdata1 = rdata2 := congrArg Prod.fst hpair
  subst hrd
  rcases hb1 with ⟨_, himga⟩ | ⟨hcontra, _⟩
  · rcases hb2 with ⟨hcontra, _⟩ | ⟨_, hraster⟩
    · exact absurd hcontra (fun hh => Bool.noConfusion hh)
    · obtain ⟨rows2, cols2, D, hshape2, hlon, hlat, hD, himgb⟩ :=
        shapeRaster_ok_parts _ _ _ _ _ hraster
      have hsh : ([rows2, cols2] : List Nat) = [rows, cols] :=
        hshape2.symm.trans hshape
      have hrows : rows = rows2 := by
        injection hsh with h1' h2'
        exact h1'.symm
      have hcols : cols = cols2 := by
        injection hsh with h1' h2'
        injection h2' with h3' h4'
        exact h3'.symm
      subst hrows
      subst hcols
      have hdataD : dictGet D name = some (Arr.two M) := by
        rw [himgb] at hM
        exact hM
      obtain ⟨hmapD, hlenD⟩ := rasterizeData_get rows cols rdata1 D hD name
      rw [hmapD] at hdataD
      cases hd : dictGet rdata1 name with
      | none => rw [hd] at hdataD; exact absurd hdataD (by simp)
      | some d =>
        rw [hd] at hdataD
        have hMd : (npReshape cols rows d).reverse = M :=
          Arr.two.inj (Option.some.inj hdataD)
        have hdl : d.length = rows * cols := hlenD d hd
        refine ⟨d, ?_, ?_, ?_, hdl, ?_⟩
        · rw [himga]
          show dictGet
            (rdata1.map (fun kv => (kv.1, Arr.one kv.2))) name = some (Arr.one d)
          rw [dictGet_map, hd]
          rfl
        · rw [← hMd, List.length_reverse, npReshape_length]
        · intro row hrow
          rw [← hMd] at hrow
          exact npReshape_row_length cols rows d hdl row (List.mem_reverse.mp hrow)
        · rw [← hMd, List.reverse_reverse]
          exact npReshape_flatten cols rows d hdl
  · exact absurd hcontra (fun hh => Bool.noConfusion hh)

/-- Witness for C1 (amended), instantiating the general law at the 4×4
identity-grid scenario. -/
theorem c1_amended_witness :
    ∃ xs, dictGet img4flat.data "soil_moisture" = some (Arr.one xs) ∧
      ex4.length = 4 ∧ (∀ row ∈ ex4, row.length = 4) ∧
      xs.length = 4 * 4 ∧ ex4.reverse.flatten = xs :=
  c1_amended.2.2 (r4 true) ds4 none (r4 true) (r4 false) img4flat img4raster
    4 4 "soil_moisture" ex4 rfl rfl rfl rfl

/-- C5 counterexample: a raster-mode read over a grid with a
1-dimensional reported subset shape fails with the
grid-is-1-dimensional `ValueError`, whose message does not mention
flatten mode at all — the claim's "the error recommends flatten mode"
fails for this branch (only the product-mismatch error recommends it). -/
theorem c5_counterexample :
    (read { r4 false with grid := g1d } ds4 none).2 =
      .error (.valueError grid1dMsg) ∧
    ¬ ("flatten".data <:+: grid1dMsg.data) :=
  ⟨rfl, by decide⟩

/-- C5 (amended): in raster mode, a read can never return an image when
the reported subset shape is not 2-dimensional or its product disagrees
with an active coordinate array length; the non-2-D case fails with the
`ValueError` requiring a 2-D grid (which does not mention flatten mode),
the product-mismatch case fails with the `ValueError` naming the shape
and recommending `flatten=True`; and a successful raster-mode read
certifies a 2-D shape with matching product and returns coordinate and
data arrays of exactly that 2-D shape. -/
theorem c5_raster_shape :
    (∀ (r : Reader) (ds : H5File) (ts : Option Int) (r2 : Reader) (img : Image),
      r.flatten = false → r.grid.subset_shape.length ≠ 2 →
      read r ds ts ≠ (r2, .ok img)) ∧
    (∀ (r : Reader) (ds : H5File) (ts : Option Int) (r2 : Reader) (img : Image)
        (rows cols : Nat),
      r.flatten = false → r.grid.subset_shape = [rows, cols] →
      (rows * cols ≠ r.grid.activearrlon.length ∨
        rows * cols ≠ r.grid.activearrlat.length) →
      read r ds ts ≠ (r2, .ok img)) ∧
    (∀ (g : Grid) (rdata : List (String × List Val))
        (rmeta : List (String × List (String × Val))) (ts : Option Int),
      g.subset_shape.length ≠ 2 →
      shapeRaster g rdata rmeta ts = .error (.valueError grid1dMsg)) ∧
    ¬ ("flatten".data <:+: grid1dMsg.data) ∧
    (∀ (g : Grid) (rdata : List (String × List Val))
        (rmeta : List (String × List (String × Val))) (ts : Option Int)
        (rows cols : Nat),
      g.subset_shape = [rows, cols] →
      (rows * cols ≠ g.activearrlon.length ∨ rows * cols ≠ g.activearrlat.length) →
      shapeRaster g rdata rmeta ts =
        .error (.valueError (shapeMismatchMsg [rows, cols]))) ∧
    (∀ rows cols : Nat, "flatten=True".data <:+: (shapeMismatchMsg [rows, cols]).data) ∧
    (∀ (r : Reader) (ds : H5File) (ts : Option Int) (r2 : Reader) (img : Image),
      r.flatten = false → read r ds ts = (r2, .ok img) →
      ∃ rows cols,
        r.grid.subset_shape = [rows, cols] ∧
        rows * cols = r.grid.activearrlon.length ∧
        rows * cols = r.grid.activearrlat.length ∧
        (∃ L, img.lon = Arr.two L ∧ L.length = rows ∧ ∀ row ∈ L, row.length = cols) ∧
        (∃ L, img.lat = Arr.two L ∧ L.length = rows ∧ ∀ row ∈ L, row.length = cols) ∧
        (∀ (name : String) (a : Arr), dictGet img.data name = some a →
          ∃ M, a = Arr.two M ∧ M.length = rows ∧ ∀ row ∈ M, row.length = cols)) := by
  have hgrid1d : ∀ (g : Grid) (rdata : List (String × List Val))
      (rmeta : List (String × List (String × Val))) (ts : Option Int),
      g.subset_shape.length ≠ 2 →
      shapeRaster g rdata rmeta ts = .error (.valueError grid1dMsg) := by
    intro g rdata rmeta ts hlen2
    unfold shapeRaster
    rcases hs : g.subset_shape with _ | ⟨a, _ | ⟨b, _ | ⟨c, t⟩⟩⟩
    · rfl
    · rfl
    · exact absurd (by rw [hs]; rfl) hlen2
    · rfl
  have hsucc : ∀ (r : Reader) (ds : H5File) (ts : Option Int) (r2 : Reader)
      (img : Image), r.flatten = false → read r ds ts = (r2, .ok img) →
      ∃ rows cols,
        r.grid.subset_shape = [rows, cols] ∧
        rows * cols = r.grid.activearrlon.length ∧
        rows * cols = r.grid.activearrlat.length ∧
        (∃ L, img.lon = Arr.two L ∧ L.length = rows ∧ ∀ row ∈ L, row.length = cols) ∧
        (∃ L, img.lat = Arr.two L ∧ L.length = rows ∧ ∀ row ∈ L, row.length = cols) ∧
        (∀ (name : String) (a : Arr), dictGet img.data name = some a →
          ∃ M, a = Arr.two M ∧ M.length = rows ∧ ∀ row ∈ M, row.length = cols) := by
    intro r ds ts r2 img hfl h
    obtain ⟨op, grp, rdata, rmeta, hres, hr2, hgrp, hloop, hb⟩ :=
      read_ok_parts _ ds ts r2 img h
    rcases hb with ⟨hcontra, _⟩ | ⟨_, hraster⟩
    · rw [hfl] at hcontra
      exact absurd hcontra (fun hh => Bool.noConfusion hh)
    · obtain ⟨rows, cols, D, hshape, hlon, hlat, hD, himg⟩ :=
        shapeRaster_ok_parts _ _ _ _ _ hraster
      refine ⟨rows, cols, hshape, hlon, hlat, ?_, ?_, ?_⟩
      · refine ⟨(npReshape cols rows r.grid.activearrlon).reverse,
          by rw [himg], ?_, ?_⟩
        · rw [List.length_reverse, npReshape_length]
        · intro row hrow
          exact npReshape_row_length cols rows _ hlon.symm row
            (List.mem_reverse.mp hrow)
      · refine ⟨(npReshape cols rows r.grid.activearrlat).reverse,
          by rw [himg], ?_, ?_⟩
        · rw [List.length_reverse, npReshape_length]
        · intro row hrow
          exact npReshape_row_length cols rows _ hlat.symm row
            (List.mem_reverse.mp hrow)
      · intro name a ha
        rw [himg] at ha
        obtain ⟨hmapD, hlenD⟩ := rasterizeData_get rows cols rdata D hD name
        rw [hmapD] at ha
        cases hd : dictGet rdata name with
        | none => rw [hd] at ha; exact absurd ha (by simp)
        | some d =>
          rw [hd] at ha
          have haM : a = Arr.two (npReshape cols rows d).reverse :=
            (Option.some.inj ha).symm
          have hdl : d.length = rows * cols := hlenD d hd
          refine ⟨(npReshape cols rows d).reverse, haM, ?_, ?_⟩
          · rw [List.length_reverse, npReshape_length]
          · intro row hrow
            exact npReshape_row_length cols rows d hdl row
              (List.mem_reverse.mp hrow)
  refine ⟨?_, ?_, hgrid1d, by decide, ?_, ?_, hsucc⟩
  · intro r ds ts r2 img hfl hlen2 hcontra
    obtain ⟨rows, cols, hshape, _, _, _, _, _⟩ := hsucc r ds ts r2 img hfl hcontra
    exact hlen2 (by rw [hshape]; rfl)
  · intro r ds ts r2 img rows cols hfl hshape hmis hcontra
    obtain ⟨rows2, cols2, hshape2, hlon2, hlat2, _, _, _⟩ :=
      hsucc r ds ts r2 img hfl hcontra
    have hsh : ([rows, cols] : List Nat) = [rows2, cols2] :=
      hshape.symm.trans hshape2
    have hr : rows = rows2 := by
      injection hsh with h1' h2'
    have hc : cols = cols2 := by
      injection hsh with h1' h2'
      injection h2' with h3' h4'
    rcases hmis with hmis | hmis
    · exact hmis (by rw [hr, hc]; exact hlon2)
    · exact hmis (by rw [hr, hc]; exact hlat2)
  · intro g rdata rmeta ts rows cols hshape hmis
    rw [shapeRaster_eq g rdata rmeta ts rows cols hshape, if_pos]
    have hp : listProd [rows, cols] = rows * cols := by
      show (1 * rows) * cols = rows * cols
      rw [Nat.one_mul]
    rw [hp]
    exact hmis
  · intro rows cols
    unfold shapeMismatchMsg
    exact sub_append_lift ("The grid shape " ++ toString [rows, cols]).data
      (by decide :
        ("flatten=True".data <:+:
          (" does not match with the shape of the loaded data. If you have passed a subgrid with gaps (e.g. landpoints only) you have to set `flatten=True`").data))

/-- Witness for C5 (amended): the 1-dimensional grid `g1d` fails with
the grid-is-1-dimensional error, and a 4×4 shape over a single active
coordinate fails with the shape-mismatch error naming the shape. -/
theorem c5_raster_shape_witness :
    shapeRaster g1d [] [] none = .error (.valueError grid1dMsg) ∧
    shapeRaster { g4 with activearrlon := [0] } [] [] none =
      .error (.valueError (shapeMismatchMsg [4, 4])) :=
  ⟨c5_raster_shape.2.2.1 g1d [] [] none (by decide),
    c5_raster_shape.2.2.2.2.1 { g4 with activearrlon := [0] } [] [] none 4 4 rfl
      (Or.inl (by decide))⟩

/-- C9: when the two requested parameters of a flatten-mode read resolve
to the same output variable name, the returned image's data and
metadata mappings hold a single entry under that name carrying the
later-listed parameter's values — the dict assignment silently
overwrites the earlier entry and no error is raised. -/
theorem c9_collision (r : Reader) (ds : H5File) (ts : Option Int) (op : String)
    (grp : List (String × H5Field)) (p1 p2 : String) (f1 f2 : H5Field)
    (d1 d2 : List Val)
    (hps : r.parameters = [p1, p2]) (hflat : r.flatten = true)
    (hop : r.overpass = some op) (hopv : op = "AM" ∨ op = "PM")
    (hgrp : lookupGroup ds
      (overpass_templ (if op ≠ "" then "_" ++ strUpper op else "")) = some grp)
    (hf1 : lookupField grp (p1 ++ varSuffix op) = some f1)
    (hf2 : lookupField grp (p2 ++ varSuffix op) = some f2)
    (hd1 : fieldData r.grid f1 = .ok d1)
    (hd2 : fieldData r.grid f2 = .ok d2)
    (hcollide : ret_param_name r.var_overpass_str (some op) p1 =
      ret_param_name r.var_overpass_str (some op) p2) :
    (read r ds ts).2 =
      .ok (mkFlatImage r.grid
        [(ret_param_name r.var_overpass_str (some op) p2, d2)]
        [(ret_param_name r.var_overpass_str (some op) p2, f2.attrs)] ts) := by
  have hres : resolveOverpass r.overpass (ds.groups.map Prod.fst) = .ok op := by
    rw [hop]
    simp only [resolveOverpass]
    rw [if_pos hopv]
  have hloop : readVarsLoop r.var_overpass_str r.grid grp op [] [] r.parameters =
      .ok ([(ret_param_name r.var_overpass_str (some op) p2, d2)],
        [(ret_param_name r.var_overpass_str (some op) p2, f2.attrs)]) := by
    rw [hps,
      readVarsLoop_cons r.var_overpass_str r.grid grp op [] [] p1 [p2] f1 d1 hf1 hd1,
      readVarsLoop_cons r.var_overpass_str r.grid grp op _ _ p2 [] f2 d2 hf2 hd2,
      hcollide]
    simp [readVarsLoop, dictInsert]
  unfold read
  rw [hres]
  show readBody r.parameters r.var_overpass_str r.grid r.flatten ds op ts = _
  simp only [readBody, hgrp, hloop, hflat, if_true]

/-- A full 2×2 identity grid for the collision fixture. -/
def g2 : Grid :=
  { activegpis := [0, 1, 2, 3]
    activearrlon := [0, 1, 2, 3]
    activearrlat := [0, 1, 2, 3]
    subset_shape := [2, 2] }

/-- First collision field (looked up for parameter `soil_moisture`
under the `PM` suffix). -/
def f1C9 : H5Field := { data := [[1, 2], [3, 4]], attrs := [("units", 7)] }

/-- Second collision field (looked up for parameter `soil_moisture_pm`
under the `PM` suffix). -/
def f2C9 : H5Field := { data := [[10, 20], [30, 40]], attrs := [] }

/-- A descending-overpass file carrying both collision fields. -/
def dsC9 : H5File :=
  { groups := [("Soil_Moisture_Retrieval_Data_PM",
      [("soil_moisture_pm", f1C9), ("soil_moisture_pm_pm", f2C9)])] }

/-- A reader requesting `soil_moisture` and `soil_moisture_pm` with
output-suffixing enabled under a fixed `PM` overpass: both resolve to
the output name `soil_moisture_pm`. -/
def rC9 : Reader :=
  { filename := "f.h5"
    mode := "r"
    parameters := ["soil_moisture", "soil_moisture_pm"]
    overpass := some "PM"
    var_overpass_str := true
    grid := g2
    flatten := true }

/-- Witness for C9: the claim's own example — requesting both
`soil_moisture` and `soil_moisture_pm` under a `PM` overpass with
suffixing enabled yields a single `soil_moisture_pm` entry holding the
later parameter's data. -/
theorem c9_collision_witness :
    (read rC9 dsC9 none).2 =
      .ok (mkFlatImage g2 [("soil_moisture_pm", [30, 40, 10, 20])]
        [("soil_moisture_pm", [])] none) :=
  c9_collision rC9 dsC9 none "PM"
    [("soil_moisture_pm", f1C9), ("soil_moisture_pm_pm", f2C9)]
    "soil_moisture" "soil_moisture_pm" f1C9 f2C9 [3, 4, 1, 2] [30, 40, 10, 20]
    rfl rfl rfl (Or.inr rfl) rfl rfl rfl rfl rfl rfl

end SmapIO
